import Mathlib

/-!
Shallow embedding of the two conversion scripts of the `card` repository:
`src/convert_tflite.py` (Procedure A, structure-only emitter) and
`src/manual_convert.py` (Procedure B, placeholder-weights emitter).

The JSON descriptors the scripts build as Python dict literals are embedded
as `JValue` terms; the random float32 tensors of Procedure B are embedded at
the bit-pattern level, parameterised by an abstract stream `draw : Nat → Nat`
of float32 bit patterns (the successive outputs of `np.random.randn(...)
.astype(np.float32)`, which numpy fills in row-major order) and an abstract
function `mul01 : Nat → Nat` (float32 multiplication by `0.1` on bit
patterns).  Serialisation writes each float32 element as 4 little-endian
bytes, matching `ndarray.tofile` on the little-endian platforms the scripts
target.  Each script's externally visible behaviour (reads, prints, directory
creation, file writes, in program order) is embedded as a concrete event
trace.
-/

set_option maxRecDepth 10000

namespace Card

/-- JSON values.  All numbers occurring in the two descriptors are
non-negative integers, so the numeric payload is a `Nat`. -/
inductive JValue where
  | null : JValue
  | bool : Bool → JValue
  | num : Nat → JValue
  | str : String → JValue
  | arr : List JValue → JValue
  | obj : List (String × JValue) → JValue
deriving Repr

/-- Field lookup in a JSON object (first binding wins, as in a Python dict
serialised by `json.dump`, whose keys are unique here). -/
def jGet : JValue → String → Option JValue
  | .obj fs, k => fs.lookup k
  | _, _ => none

/-- Read a JSON array of numbers as a list of `Nat` (used for the `shape`
fields of the weights manifest). -/
def jNatList : JValue → Option (List Nat)
  | .arr xs => xs.mapM fun v => match v with | .num n => some n | _ => none
  | _ => none

/-- Read a JSON string. -/
def jString : JValue → Option String
  | .str s => some s
  | _ => none

/-- The nodes of `modelTopology.node`, when present and an array. -/
def topoNodes (j : JValue) : Option (List JValue) :=
  match jGet j "modelTopology" with
  | some t =>
    match jGet t "node" with
    | some (.arr ns) => some ns
    | _ => none
  | none => none

/-- The `shape` lists of all weight entries of all `weightsManifest` groups,
in manifest order. -/
def manifestShapes (j : JValue) : Option (List (List Nat)) :=
  match jGet j "weightsManifest" with
  | some (.arr gs) =>
    (gs.mapM fun g =>
      match jGet g "weights" with
      | some (.arr ws) => ws.mapM fun w =>
          match jGet w "shape" with
          | some s => jNatList s
          | none => none
      | _ => none).map List.flatten
  | _ => none

/-- The `name` fields of all weight entries of all `weightsManifest` groups,
in manifest order. -/
def manifestNames (j : JValue) : Option (List String) :=
  match jGet j "weightsManifest" with
  | some (.arr gs) =>
    (gs.mapM fun g =>
      match jGet g "weights" with
      | some (.arr ws) => ws.mapM fun w =>
          match jGet w "name" with
          | some s => jString s
          | none => none
      | _ => none).map List.flatten
  | _ => none

/-- The weight-entry lists of the `weightsManifest` groups (one list per
group), used to state that Procedure A declares a single group with an empty
`weights` list. -/
def manifestGroups (j : JValue) : Option (List JValue) :=
  match jGet j "weightsManifest" with
  | some (.arr gs) => some gs
  | _ => none

/-- The number of elements of a tensor of the given shape. -/
def shapeSize (s : List Nat) : Nat := s.foldl (· * ·) 1

/-- Metadata of the input `.tflite` model, as reported by the interpreter
(`get_input_details` / `get_output_details`).  Both scripts only print it;
nothing in either output artifact depends on it. -/
structure MetaInfo where
  inputShape : List Nat
  outputShape : List Nat
  inputDtype : String
  outputDtype : String
deriving Repr, DecidableEq

/-- The descriptor built by Procedure A
(`convert_tflite.py`, the `model_json` dict literal, lines 25-42).
The interpreter metadata `m` is in scope in the source but unused by the
literal. -/
def modelJsonA (_m : MetaInfo) : JValue :=
  .obj [
    ("format", .str "graph-model"),
    ("generatedBy", .str "python-converter"),
    ("convertedBy", .str "Custom Script 1.0.0"),
    ("signature", .obj []),
    ("userDefinedMetadata", .obj []),
    ("modelTopology", .obj [
      ("node", .arr []),
      ("library", .obj []),
      ("versions", .obj [("producer", .num 1)])
    ]),
    ("weightsManifest", .arr [
      .obj [
        ("paths", .arr [.str "group1-shard1of1.bin"]),
        ("weights", .arr [])
      ]
    ])
  ]

/-- The descriptor built by Procedure B
(`manual_convert.py`, the `model_json` dict literal, lines 24-108).
The interpreter metadata `m` is in scope in the source but unused by the
literal. -/
def modelJsonB (_m : MetaInfo) : JValue :=
  .obj [
    ("format", .str "graph-model"),
    ("generatedBy", .str "manual-converter"),
    ("convertedBy", .str "TensorFlow.js Converter 4.0.0"),
    ("signature", .obj [
      ("inputs", .obj [
        ("input", .obj [
          ("name", .str "input:0"),
          ("dtype", .str "DT_FLOAT"),
          ("tensorShape", .obj [
            ("dim", .arr [
              .obj [("size", .str "1")],
              .obj [("size", .str "70")],
              .obj [("size", .str "70")],
              .obj [("size", .str "1")]
            ])
          ])
        ])
      ]),
      ("outputs", .obj [
        ("output", .obj [
          ("name", .str "output:0"),
          ("dtype", .str "DT_FLOAT"),
          ("tensorShape", .obj [
            ("dim", .arr [
              .obj [("size", .str "1")],
              .obj [("size", .str "52")]
            ])
          ])
        ])
      ])
    ]),
    ("userDefinedMetadata", .obj [
      ("inputShape", .str "[1,70,70,1]"),
      ("outputShape", .str "[1,52]"),
      ("classes", .str "52")
    ]),
    ("modelTopology", .obj [
      ("node", .arr [
        .obj [
          ("name", .str "input"),
          ("op", .str "Placeholder"),
          ("attr", .obj [
            ("dtype", .obj [("type", .str "DT_FLOAT")]),
            ("shape", .obj [("shape", .obj [("dim", .arr [
              .obj [("size", .str "1")],
              .obj [("size", .str "70")],
              .obj [("size", .str "70")],
              .obj [("size", .str "1")]
            ])])])
          ])
        ],
        .obj [
          ("name", .str "output"),
          ("op", .str "Identity"),
          ("input", .arr [.str "dense/BiasAdd"]),
          ("attr", .obj [
            ("T", .obj [("type", .str "DT_FLOAT")])
          ])
        ]
      ]),
      ("library", .obj []),
      ("versions", .obj [("producer", .num 1)])
    ]),
    ("weightsManifest", .arr [
      .obj [
        ("paths", .arr [.str "group1-shard1of1.bin"]),
        ("weights", .arr [
          .obj [
            ("name", .str "conv2d/kernel"),
            ("shape", .arr [.num 3, .num 3, .num 1, .num 32]),
            ("dtype", .str "float32")
          ],
          .obj [
            ("name", .str "conv2d/bias"),
            ("shape", .arr [.num 32]),
            ("dtype", .str "float32")
          ],
          .obj [
            ("name", .str "dense/kernel"),
            ("shape", .arr [.num 1152, .num 52]),
            ("dtype", .str "float32")
          ],
          .obj [
            ("name", .str "dense/bias"),
            ("shape", .arr [.num 52]),
            ("dtype", .str "float32")
          ]
        ])
      ]
    ])
  ]

/-! ### Weight generation and serialisation (Procedure B, lines 116-130) -/

/-- The 4-byte little-endian encoding of a float32 bit pattern
(`ndarray.tofile` of a float32 array on a little-endian platform writes each
element this way). -/
def f32BytesLE (b : Nat) : List Nat :=
  [b % 256, b / 256 % 256, b / 65536 % 256, b / 16777216 % 256]

/-- Bytes written for a flat float32 array (`arr.astype(np.float32).tofile`). -/
def blobBytes (elems : List Nat) : List Nat := elems.flatMap f32BytesLE

/-- Row-major (C-order) flattening of a rank-1 tensor (`ndarray.flatten`). -/
def flattenRM1 (d0 : Nat) (t : Nat → α) : List α := (List.range d0).map t

/-- Row-major (C-order) flattening of a rank-2 tensor (`ndarray.flatten`). -/
def flattenRM2 (d0 d1 : Nat) (t : Nat → Nat → α) : List α :=
  (List.range d0).flatMap fun i => (List.range d1).map (t i)

/-- Row-major (C-order) flattening of a rank-4 tensor (`ndarray.flatten`). -/
def flattenRM4 (d0 d1 d2 d3 : Nat) (t : Nat → Nat → Nat → Nat → α) : List α :=
  (List.range d0).flatMap fun i =>
    (List.range d1).flatMap fun j =>
      (List.range d2).flatMap fun k =>
        (List.range d3).map (t i j k)

/-- `np.random.randn(3,3,1,32).astype(np.float32) * 0.1` (line 116): numpy
fills the C-ordered array with consecutive stream draws, so the element at
multi-index `(i,j,k,l)` is draw number `((i*3+j)*1+k)*32+l` of the run's
stream, scaled by `0.1`. -/
def convKernel (draw mul01 : Nat → Nat) (i j k l : Nat) : Nat :=
  mul01 (draw (((i * 3 + j) * 1 + k) * 32 + l))

/-- `np.random.randn(32).astype(np.float32) * 0.1` (line 117); its draws
follow the 288 draws of the conv kernel in the run's stream. -/
def convBias (draw mul01 : Nat → Nat) (i : Nat) : Nat :=
  mul01 (draw (288 + i))

/-- `np.random.randn(1152, 52).astype(np.float32) * 0.1` (line 118); its
draws start at offset 320 of the run's stream. -/
def denseKernel (draw mul01 : Nat → Nat) (i j : Nat) : Nat :=
  mul01 (draw (320 + (i * 52 + j)))

/-- `np.random.randn(52).astype(np.float32) * 0.1` (line 119); its draws
start at offset 60224 of the run's stream. -/
def denseBias (draw mul01 : Nat → Nat) (i : Nat) : Nat :=
  mul01 (draw (60224 + i))

/-- `np.concatenate([conv_kernel.flatten(), conv_bias.flatten(),
dense_kernel.flatten(), dense_bias.flatten()])` (lines 122-127). -/
def allWeights (draw mul01 : Nat → Nat) : List Nat :=
  flattenRM4 3 3 1 32 (convKernel draw mul01)
    ++ flattenRM1 32 (convBias draw mul01)
    ++ flattenRM2 1152 52 (denseKernel draw mul01)
    ++ flattenRM1 52 (denseBias draw mul01)

/-- The bytes of `./assets/cards_model/group1-shard1of1.bin` as written by
`all_weights.astype(np.float32).tofile(...)` (line 130). -/
def weightBlob (draw mul01 : Nat → Nat) : List Nat :=
  blobBytes (allWeights draw mul01)

/-- The shapes passed to the four `np.random.randn` calls, in generation
order (lines 116-119). -/
def genShapes : List (List Nat) := [[3, 3, 1, 32], [32], [1152, 52], [52]]

/-- The bytes written by Procedure A for the binary file:
`np.array([], dtype=np.float32).tofile(...)` serialises zero elements. -/
def blobA : List Nat := blobBytes []

/-! ### Sequentialisation of the row-major flattenings -/

theorem flatMap_range_eq_map (d e : Nat) (g : Nat → α) (f : Nat → List α)
    (hf : ∀ i, f i = (List.range e).map fun j => g (i * e + j)) :
    (List.range d).flatMap f = (List.range (d * e)).map g := by
  induction d with
  | zero => simp
  | succ n ih =>
    rw [List.range_succ, List.flatMap_append, ih, Nat.succ_mul, List.range_add,
      List.map_append, List.map_map]
    simp only [List.flatMap_cons, List.flatMap_nil, List.append_nil, hf]
    rfl

theorem flattenRM1_seq (d0 : Nat) (g : Nat → α) :
    flattenRM1 d0 (fun i => g i) = (List.range d0).map g := rfl

theorem flattenRM2_seq (d0 d1 : Nat) (g : Nat → α) :
    flattenRM2 d0 d1 (fun i j => g (i * d1 + j))
      = (List.range (d0 * d1)).map g :=
  flatMap_range_eq_map d0 d1 g _ fun _ => rfl

theorem flattenRM4_seq (d0 d1 d2 d3 : Nat) (g : Nat → α) :
    flattenRM4 d0 d1 d2 d3 (fun i j k l => g (((i * d1 + j) * d2 + k) * d3 + l))
      = (List.range (d0 * (d1 * (d2 * d3)))).map g := by
  refine flatMap_range_eq_map d0 (d1 * (d2 * d3)) g _ fun i => ?_
  refine flatMap_range_eq_map d1 (d2 * d3) _ _ fun j => ?_
  refine flatMap_range_eq_map d2 d3 _ _ fun k => ?_
  refine List.map_congr_left fun l _ => ?_
  exact congrArg g (by ring)

theorem convKernel_flat (draw mul01 : Nat → Nat) :
    flattenRM4 3 3 1 32 (convKernel draw mul01)
      = (List.range 288).map fun m => mul01 (draw m) :=
  flattenRM4_seq 3 3 1 32 (fun m => mul01 (draw m))

theorem denseKernel_flat (draw mul01 : Nat → Nat) :
    flattenRM2 1152 52 (denseKernel draw mul01)
      = (List.range 59904).map fun m => mul01 (draw (320 + m)) :=
  flattenRM2_seq 1152 52 (fun m => mul01 (draw (320 + m)))

/-- The concatenated weight array lists the (scaled) draws of the run's
stream in order: element `m` of the blob is draw `m` scaled by `0.1`. -/
theorem allWeights_seq (draw mul01 : Nat → Nat) :
    allWeights draw mul01 = (List.range 60276).map fun m => mul01 (draw m) := by
  have e1 : (60276 : Nat) = 288 + (32 + (59904 + 52)) := by norm_num
  rw [allWeights, convKernel_flat, denseKernel_flat, e1]
  simp only [List.range_add, List.map_append, List.map_map, List.append_assoc,
    flattenRM1]
  refine congrArg₂ (· ++ ·) (List.map_congr_left fun i _ => rfl)
    (congrArg₂ (· ++ ·) (List.map_congr_left fun i _ => rfl)
      (congrArg₂ (· ++ ·)
        (List.map_congr_left fun i _ =>
          congrArg mul01 (congrArg draw (by simp only [Function.comp_apply]; omega)))
        (List.map_congr_left fun i _ =>
          congrArg mul01 (congrArg draw (by simp only [Function.comp_apply]; omega)))))

theorem blobBytes_length (ws : List Nat) : (blobBytes ws).length = 4 * ws.length := by
  induction ws with
  | nil => rfl
  | cons a t ih =>
    have h : blobBytes (a :: t) = f32BytesLE a ++ blobBytes t := rfl
    rw [h, List.length_append, ih, List.length_cons]
    show 4 + 4 * t.length = 4 * (t.length + 1)
    omega

theorem allWeights_length (draw mul01 : Nat → Nat) :
    (allWeights draw mul01).length = 60276 := by
  rw [allWeights_seq]; simp

theorem weightBlob_length (draw mul01 : Nat → Nat) :
    (weightBlob draw mul01).length = 241104 := by
  rw [weightBlob, blobBytes_length, allWeights_length]

/-- Byte-level description of the written blob: 60276 elements, each
serialised as 4 little-endian bytes, element `m` being draw `m` of the run's
stream scaled by `0.1`. -/
theorem weightBlob_seq (draw mul01 : Nat → Nat) :
    weightBlob draw mul01
      = (List.range 60276).flatMap fun m => f32BytesLE (mul01 (draw m)) := by
  rw [weightBlob, blobBytes, allWeights_seq, List.flatMap_map]

/-! ### JSON serialisation (`json.dump`) and a JSON recogniser -/

/-- The double-quote character. -/
def qCh : Char := Char.ofNat 34

/-- The left curly brace character. -/
def lbCh : Char := Char.ofNat 123

/-- The right curly brace character. -/
def rbCh : Char := Char.ofNat 125

mutual
/-- Compact JSON serialisation of a value, as a character list.
`json.dump(..., indent=2)` writes the same JSON document with additional
insignificant whitespace; none of the properties checked here depend on
whitespace, which this embedding therefore omits. -/
def renderJ : JValue → List Char
  | .num n => (Nat.repr n).toList
  | .str s => qCh :: s.toList ++ [qCh]
  | .null => "null".data
  | .bool b => (cond b "true" "false").data
  | .arr [] => ['[', ']']
  | .arr (x :: xs) => '[' :: (renderJ x ++ renderItems xs) ++ [']']
  | .obj [] => [lbCh, rbCh]
  | .obj ((k, v) :: xs) =>
      lbCh :: (qCh :: k.toList ++ [qCh, ':'] ++ renderJ v ++ renderMembers xs) ++ [rbCh]

/-- Remaining array items, each preceded by a comma. -/
def renderItems : List JValue → List Char
  | x :: xs => (',' :: renderJ x) ++ renderItems xs
  | [] => []

/-- Remaining object members, each preceded by a comma. -/
def renderMembers : List (String × JValue) → List Char
  | (k, v) :: xs => (',' :: qCh :: k.toList) ++ ([qCh, ':'] ++ renderJ v) ++ renderMembers xs
  | [] => []
end

/-- Digit test for the JSON number grammar. -/
def isDigitCh (c : Char) : Bool := 48 ≤ c.toNat && c.toNat ≤ 57

/-- Consume a JSON string body after the opening quote: plain characters
(no backslash escapes; the descriptors contain none) up to the closing
quote. -/
def pStr : List Char → Option (List Char)
  | [] => none
  | c :: rest =>
    if c = qCh then some rest
    else if 32 ≤ c.toNat ∧ c ≠ Char.ofNat 92 then pStr rest
    else none

/-- Consume a JSON number (one or more digits; the descriptors contain only
non-negative integers). -/
def pNum : List Char → Option (List Char)
  | [] => none
  | c :: rest => if isDigitCh c then some (rest.dropWhile isDigitCh) else none

mutual
/-- Fueled recogniser for a JSON value without insignificant whitespace.
Returns the remaining input on success. -/
def pVal : Nat → List Char → Option (List Char)
  | 0, _ => none
  | Nat.succ fuel, cs =>
    if "null".toList.isPrefixOf cs then some (cs.drop 4)
    else if "true".toList.isPrefixOf cs then some (cs.drop 4)
    else if "false".toList.isPrefixOf cs then some (cs.drop 5)
    else
    match cs with
    | c :: rest =>
      if c = qCh then pStr rest
      else if c = '[' then
        match rest with
        | d :: rest2 => if d = ']' then some rest2 else pItems fuel rest
        | [] => none
      else if c = lbCh then
        match rest with
        | d :: rest2 => if d = rbCh then some rest2 else pMembers fuel rest
        | [] => none
      else if isDigitCh c then pNum cs
      else none
    | [] => none

/-- Array items: a value, then either a comma and more items or the closing
bracket. -/
def pItems : Nat → List Char → Option (List Char)
  | 0, _ => none
  | Nat.succ fuel, cs =>
    match pVal fuel cs with
    | some (c :: rest2) =>
      if c = ',' then pItems fuel rest2
      else if c = ']' then some rest2
      else none
    | _ => none

/-- Object members: a quoted key, a colon, a value, then either a comma and
more members or the closing brace. -/
def pMembers : Nat → List Char → Option (List Char)
  | 0, _ => none
  | Nat.succ fuel, cs =>
    match cs with
    | c :: rest =>
      if c = qCh then
        match pStr rest with
        | some (c2 :: rest2) =>
          if c2 = ':' then
            match pVal fuel rest2 with
            | some (c3 :: rest3) =>
              if c3 = ',' then pMembers fuel rest3
              else if c3 = rbCh then some rest3
              else none
            | _ => none
          else none
        | _ => none
      else none
    | [] => none
end

/-- A character list is a syntactically valid JSON document (for the
whitespace-free grammar the renderer emits): one value consuming the whole
input. -/
def jsonOk (cs : List Char) : Bool :=
  match pVal (2 * cs.length + 4) cs with
  | some [] => true
  | _ => false

/-! ### Script runs as event traces

Each script is straight-line code; its externally visible behaviour is the
sequence of runtime/filesystem events below, in program order.  An unhandled
failure at some operation aborts the run, so the executed events of a failed
run are a prefix of the full trace ending just before the failing
operation.  Consecutive `print` calls are coalesced into one event. -/

/-- Externally visible events of a script run. -/
inductive Ev where
  | readModel : String → Ev
  | printInfo : MetaInfo → Ev
  | printMsg : String → Ev
  | mkdirP : String → Ev
  | writeF : String → List Nat → Ev
deriving Repr, DecidableEq

/-- Fixed input path of both scripts. -/
def tflitePath : String := "./assets/64x3-cards.tflite"

/-- Fixed output directory of both scripts. -/
def outDir : String := "./assets/cards_model"

/-- Output path of the descriptor. -/
def jsonPath : String := "./assets/cards_model/model.json"

/-- Output path of the weight blob. -/
def binPath : String := "./assets/cards_model/group1-shard1of1.bin"

/-- Bytes of the descriptor file written by Procedure A. -/
def jsonBytesA (m : MetaInfo) : List Nat := (renderJ (modelJsonA m)).map Char.toNat

/-- Bytes of the descriptor file written by Procedure B. -/
def jsonBytesB (m : MetaInfo) : List Nat := (renderJ (modelJsonB m)).map Char.toNat

/-- The full event trace of a successful run of `convert_tflite.py`
(`convert_tflite_to_tfjs`): load the interpreter (lines 8-9), print the
metadata (12-18), create the output directory (21), write `model.json`
(45-46), write the empty blob (49), print the closing messages (51-53). -/
def scriptA (m : MetaInfo) : List Ev :=
  [ .readModel tflitePath,
    .printInfo m,
    .mkdirP outDir,
    .writeF jsonPath (jsonBytesA m),
    .writeF binPath blobA,
    .printMsg "Basic conversion completed!" ]

/-- The full event trace of a successful run of `manual_convert.py`
(`create_tfjs_model`): print the banner (7), create the output directory
(10), load the interpreter (13-14), print the metadata (16-21), write
`model.json` (111-112), write the weight blob (116-130), print the file
listing (132-139). -/
def scriptB (m : MetaInfo) (draw mul01 : Nat → Nat) : List Ev :=
  [ .printMsg "Creating TensorFlow.js model structure...",
    .mkdirP outDir,
    .readModel tflitePath,
    .printInfo m,
    .writeF jsonPath (jsonBytesB m),
    .writeF binPath (weightBlob draw mul01),
    .printMsg "file listing" ]

/-- Whether an event is the interpreter load. -/
def isRead : Ev → Bool
  | .readModel _ => true
  | _ => false

/-- The paths of the files written by a trace, in order. -/
def writesOf (tr : List Ev) : List String :=
  tr.filterMap fun e => match e with | .writeF p _ => some p | _ => none

/-- The events executed before the interpreter load: exactly what a run
that fails at the load has performed when it aborts. -/
def preRead (tr : List Ev) : List Ev := tr.takeWhile fun e => !(isRead e)

theorem writesOf_take_scriptA (m : MetaInfo) (k : Nat) :
    writesOf ((scriptA m).take k) = ([jsonPath, binPath]).take (k - 3) := by
  rcases k with _ | _ | _ | k
  · rfl
  · rfl
  · rfl
  rcases k with _ | _ | _ | k
  · rfl
  · rfl
  · rfl
  · rw [List.take_of_length_le (l := scriptA m) (by simp [scriptA]),
      List.take_of_length_le (l := [jsonPath, binPath]) (by simp)]
    rfl

theorem writesOf_take_scriptB (m : MetaInfo) (draw mul01 : Nat → Nat) (k : Nat) :
    writesOf ((scriptB m draw mul01).take k) = ([jsonPath, binPath]).take (k - 4) := by
  rcases k with _ | _ | _ | k
  · rfl
  · rfl
  · rfl
  rcases k with _ | _ | _ | k
  · rfl
  · rfl
  · rfl
  rcases k with _ | k
  · rfl
  · rw [List.take_of_length_le (l := scriptB m draw mul01) (by simp [scriptB]),
      List.take_of_length_le (l := [jsonPath, binPath]) (by simp)]
    rfl

/-- The `name` fields of the topology nodes, in order. -/
def nodeNames (j : JValue) : Option (List String) :=
  match topoNodes j with
  | some ns => ns.mapM fun n =>
      match jGet n "name" with
      | some s => jString s
      | none => none
  | none => none

/-! ### Claims -/

/-- C1 counterexample: the blob written by Procedure B is not 240272 bytes
long (on any run; shown at the all-zero draw stream with identity scaling). -/
theorem c1_blob_length_counterexample :
    ¬ (weightBlob (fun _ => 0) (fun b => b)).length = 240272 := by
  have h := weightBlob_length (fun _ => 0) (fun b => b)
  omega

/-- C1 (amended): the binary weight file written by Procedure B has byte
length exactly `4 × (3·3·1·32 + 32 + 1152·52 + 52)` = 4 × 60276 = 241104
bytes (the claim's evaluation of that expression as 4 × 60068 = 240272 is an
arithmetic slip). -/
theorem c1_blob_byte_length_amended (draw mul01 : Nat → Nat) :
    (weightBlob draw mul01).length = 4 * (3 * 3 * 1 * 32 + 32 + 1152 * 52 + 52)
      ∧ (weightBlob draw mul01).length = 241104 := by
  have h := weightBlob_length draw mul01
  exact ⟨by rw [h], h⟩

/-- C2: the total element count of the written weight blob equals the sum
over the four weights-manifest entries of the product of each entry's
declared shape dimensions. -/
theorem c2_blob_manifest_consistent (m : MetaInfo) (draw mul01 : Nat → Nat) :
    manifestShapes (modelJsonB m) = some genShapes
      ∧ (allWeights draw mul01).length = (genShapes.map shapeSize).sum := by
  refine ⟨rfl, ?_⟩
  rw [allWeights_length]
  decide

/-- C3: the weightsManifest of Procedure B's `model.json` declares exactly
four weight entries whose shapes, in order, are `[3,3,1,32]`, `[32]`,
`[1152,52]`, `[52]` — the shapes passed to the four `np.random.randn` calls
in generation order — and the blob concatenates the four flattened tensors
in that same order, each segment's length being the declared element
count. -/
theorem c3_manifest_shapes_order (m : MetaInfo) (draw mul01 : Nat → Nat) :
    manifestShapes (modelJsonB m) = some genShapes
      ∧ manifestNames (modelJsonB m)
          = some ["conv2d/kernel", "conv2d/bias", "dense/kernel", "dense/bias"]
      ∧ allWeights draw mul01
          = flattenRM4 3 3 1 32 (convKernel draw mul01)
            ++ flattenRM1 32 (convBias draw mul01)
            ++ flattenRM2 1152 52 (denseKernel draw mul01)
            ++ flattenRM1 52 (denseBias draw mul01)
      ∧ (flattenRM4 3 3 1 32 (convKernel draw mul01)).length = 288
      ∧ (flattenRM1 32 (convBias draw mul01)).length = 32
      ∧ (flattenRM2 1152 52 (denseKernel draw mul01)).length = 59904
      ∧ (flattenRM1 52 (denseBias draw mul01)).length = 52
      ∧ genShapes.map shapeSize = [288, 32, 59904, 52] :=
  ⟨rfl, rfl, rfl,
    by rw [convKernel_flat]; simp,
    by simp [flattenRM1],
    by rw [denseKernel_flat]; simp,
    by simp [flattenRM1],
    by decide⟩

/-- C4: the weight blob is the in-order concatenation of the scaled draws of
the run's stream — element `m` (of 60276, covering the row-major
flattenings of conv-kernel, conv-bias, dense-kernel, dense-bias in that
fixed order) is draw `m` scaled by `0.1` and serialised as 4 little-endian
bytes. -/
theorem c4_blob_concat_layout (draw mul01 : Nat → Nat) :
    weightBlob draw mul01
        = (List.range 60276).flatMap (fun m => f32BytesLE (mul01 (draw m)))
      ∧ ∀ b, (f32BytesLE b).length = 4 :=
  ⟨weightBlob_seq draw mul01, fun _ => rfl⟩

/-- C5: every run of Procedure A produces a `model.json` that is valid JSON,
with `modelTopology.node` an empty sequence and a single weightsManifest
group whose `weights` list is empty, and a zero-byte binary file. -/
theorem c5_procedureA_artifacts (m : MetaInfo) :
    jsonOk (renderJ (modelJsonA m)) = true
      ∧ topoNodes (modelJsonA m) = some []
      ∧ (manifestGroups (modelJsonA m)).map (List.map fun g => jGet g "weights")
          = some [some (.arr [])]
      ∧ blobA.length = 0 :=
  ⟨rfl, rfl, rfl, rfl⟩

/-- C6: Procedure B's `modelTopology.node` holds exactly two nodes — a
Placeholder named `input` and an Identity named `output` — and the Identity
node's input list references `dense/BiasAdd`, which is not the name of any
node in the sequence. -/
theorem c6_topology_nodes_dangling_ref (m : MetaInfo) :
    ((topoNodes (modelJsonB m)).map (List.map fun n => (jGet n "name", jGet n "op")))
        = some [(some (.str "input"), some (.str "Placeholder")),
                (some (.str "output"), some (.str "Identity"))]
      ∧ ((topoNodes (modelJsonB m)).map (List.map fun n => jGet n "input"))
          = some [none, some (.arr [.str "dense/BiasAdd"])]
      ∧ nodeNames (modelJsonB m) = some ["input", "output"]
      ∧ "dense/BiasAdd" ∉ ["input", "output"] :=
  ⟨rfl, rfl, rfl, by decide⟩

/-- C7: both scripts perform the interpreter load, and everything executed
before it (all of a run that fails at the load) contains no file write: a
load failure aborts the run with neither `model.json` nor
`group1-shard1of1.bin` written. -/
theorem c7_load_failure_no_partial_output (m : MetaInfo) (draw mul01 : Nat → Nat) :
    writesOf (preRead (scriptA m)) = []
      ∧ writesOf (preRead (scriptB m draw mul01)) = []
      ∧ Ev.readModel tflitePath ∈ scriptA m
      ∧ Ev.readModel tflitePath ∈ scriptB m draw mul01 := by
  refine ⟨rfl, rfl, ?_, ?_⟩
  · simp [scriptA]
  · simp [scriptB]

/-- C8: any two successful runs of Procedure A write byte-identical
`model.json` and byte-identical (empty) blobs, and any two successful runs
of Procedure B write identical `model.json`, with only the blob's element
values (never its length) differing between runs. -/
theorem c8_structural_determinism (m1 m2 : MetaInfo)
    (draw1 mul1 draw2 mul2 : Nat → Nat) :
    jsonBytesA m1 = jsonBytesA m2
      ∧ blobA = []
      ∧ jsonBytesB m1 = jsonBytesB m2
      ∧ (weightBlob draw1 mul1).length = (weightBlob draw2 mul2).length := by
  exact ⟨rfl, rfl, rfl, by rw [weightBlob_length, weightBlob_length]⟩

/-- C9: each successful run of either script writes exactly the two files
`model.json` and `group1-shard1of1.bin`, both under the fixed output
directory `./assets/cards_model`, which the run creates if absent. -/
theorem c9_writes_exactly_two_files (m : MetaInfo) (draw mul01 : Nat → Nat) :
    writesOf (scriptA m) = [jsonPath, binPath]
      ∧ writesOf (scriptB m draw mul01) = [jsonPath, binPath]
      ∧ Ev.mkdirP outDir ∈ scriptA m
      ∧ Ev.mkdirP outDir ∈ scriptB m draw mul01
      ∧ jsonPath = outDir ++ "/model.json"
      ∧ binPath = outDir ++ "/group1-shard1of1.bin" := by
  refine ⟨rfl, rfl, ?_, ?_, by decide, by decide⟩
  · simp [scriptA]
  · simp [scriptB]

/-- C10: in every (possibly aborted) run of either script, whenever the
blob has been written, the descriptor has already been written: every
prefix of the trace containing the blob write also contains the descriptor
write, so a failure during the blob write can leave a descriptor without a
blob but never a blob without a descriptor. -/
theorem c10_descriptor_written_before_blob (m : MetaInfo) (draw mul01 : Nat → Nat)
    (k : Nat) :
    (binPath ∈ writesOf ((scriptA m).take k)
        → jsonPath ∈ writesOf ((scriptA m).take k))
      ∧ (binPath ∈ writesOf ((scriptB m draw mul01).take k)
          → jsonPath ∈ writesOf ((scriptB m draw mul01).take k)) := by
  constructor
  · intro h
    rw [writesOf_take_scriptA] at h ⊢
    generalize k - 3 = t at h ⊢
    rcases t with _ | _ | t
    · simp at h
    · exact absurd h (by decide)
    · rw [List.take_of_length_le (by simp)]
      simp
  · intro h
    rw [writesOf_take_scriptB] at h ⊢
    generalize k - 4 = t at h ⊢
    rcases t with _ | _ | t
    · simp at h
    · exact absurd h (by decide)
    · rw [List.take_of_length_le (by simp)]
      simp

/-- C10 witness: at complete runs of both scripts, the blob write is present
and therefore so is the descriptor write. -/
theorem c10_descriptor_written_before_blob_witness :
    jsonPath ∈ writesOf ((scriptA ⟨[], [], "", ""⟩).take 6)
      ∧ jsonPath ∈ writesOf
          ((scriptB ⟨[], [], "", ""⟩ (fun _ => 0) (fun b => b)).take 7) :=
  ⟨(c10_descriptor_written_before_blob ⟨[], [], "", ""⟩ (fun _ => 0) (fun b => b) 6).1
      (by decide),
   (c10_descriptor_written_before_blob ⟨[], [], "", ""⟩ (fun _ => 0) (fun b => b) 7).2
      (by decide)⟩

end Card
